import Mathlib

/-!
Verification of the circuit-breaker / rate-limiter / cache core of the
api-practice repository.  The definitions below are shallow embeddings of
the JavaScript classes: `CircuitBreaker` (src/myOwnCodes/circuit-breaker-pattern.js),
`CircuitBreakerWithFallback` (same file), `RateLimiter` and `APICache`
(src/myOwnCodes/mock-server.js).  Timestamps are naturals (milliseconds),
`Date.now()` is passed in explicitly, promises are modelled by explicit
result values, and the timer-driven queue drain is modelled by a
fuel-indexed step function that replays the `setTimeout` chain.
-/

namespace ApiPractice

/-- The three breaker states of the JS string field `state`:
"CLOSED", "OPEN", "HALF_OPEN". -/
inductive CBState where
  | CLOSED
  | OPEN
  | HALF_OPEN
deriving DecidableEq

/-- Outcome of one invocation of the protected zero-argument operation
`fn` passed to `execute`: it either returns a value or throws an error. -/
inductive OpOutcome (α ε : Type) where
  | succeeds (a : α)
  | fails (e : ε)
deriving DecidableEq

/-- What `CircuitBreaker.execute` delivers to its caller: the operation's
result, the synchronous `CircuitOpenError` thrown on the fail-fast path
("Circuit breaker is OPEN. Service unavailable."), or the operation's own
error re-thrown. -/
inductive ExecResult (α ε : Type) where
  | ok (a : α)
  | circuitOpen
  | opError (e : ε)
deriving DecidableEq

/-- The mutable fields of the JS `CircuitBreaker` class
(src/myOwnCodes/circuit-breaker-pattern.js, constructor lines 16-28).
`timeout` is the spec's `openDurationMs`, `nextAttempt` the spec's
`nextAttemptAt`. -/
structure CircuitBreaker where
  threshold : Nat
  timeout : Nat
  failureCount : Nat
  successCount : Nat
  state : CBState
  nextAttempt : Nat
deriving DecidableEq

/-- The constructor: counts zeroed, state CLOSED,
`this.nextAttempt = Date.now()`. -/
def CircuitBreaker.create (threshold timeout now : Nat) : CircuitBreaker :=
  { threshold := threshold, timeout := timeout, failureCount := 0,
    successCount := 0, state := .CLOSED, nextAttempt := now }

/-- `onSuccess` (lines 62-72): reset `failureCount`, bump `successCount`,
and close the circuit when the success happened in HALF_OPEN. -/
def CircuitBreaker.onSuccess (cb : CircuitBreaker) : CircuitBreaker :=
  let cb1 := { cb with failureCount := 0, successCount := cb.successCount + 1 }
  if cb1.state = .HALF_OPEN then { cb1 with state := .CLOSED } else cb1

/-- `onFailure` (lines 75-94): bump `failureCount`; a HALF_OPEN trial
failure reopens immediately, otherwise reaching the threshold opens the
circuit; in both opening cases `nextAttempt = Date.now() + this.timeout`. -/
def CircuitBreaker.onFailure (cb : CircuitBreaker) (now : Nat) : CircuitBreaker :=
  let cb1 := { cb with failureCount := cb.failureCount + 1 }
  if cb1.state = .HALF_OPEN then
    { cb1 with state := .OPEN, nextAttempt := now + cb1.timeout }
  else if cb1.threshold ≤ cb1.failureCount then
    { cb1 with state := .OPEN, nextAttempt := now + cb1.timeout }
  else
    cb1

/-- The `try { await fn() } catch` block of `execute` (lines 51-58):
invoke the operation once, dispatch on its outcome, re-throw its error.
The third component counts invocations of `fn` during the call. -/
def CircuitBreaker.runOp {α ε : Type} (cb : CircuitBreaker) (now : Nat)
    (op : OpOutcome α ε) : ExecResult α ε × CircuitBreaker × Nat :=
  match op with
  | .succeeds a => (.ok a, cb.onSuccess, 1)
  | .fails e => (.opError e, cb.onFailure now, 1)

/-- `execute` (lines 31-59): in OPEN state, before `nextAttempt` throw
`CircuitOpenError` without touching `fn`; at or after `nextAttempt` move
to HALF_OPEN and run the operation; otherwise just run the operation. -/
def CircuitBreaker.execute {α ε : Type} (cb : CircuitBreaker) (now : Nat)
    (op : OpOutcome α ε) : ExecResult α ε × CircuitBreaker × Nat :=
  if cb.state = .OPEN then
    if now < cb.nextAttempt then
      (.circuitOpen, cb, 0)
    else
      CircuitBreaker.runOp { cb with state := .HALF_OPEN } now op
  else
    CircuitBreaker.runOp cb now op

/-- `reset` (lines 123-128): both counters zeroed, state CLOSED. -/
def CircuitBreaker.reset (cb : CircuitBreaker) : CircuitBreaker :=
  { cb with failureCount := 0, successCount := 0, state := .CLOSED }

/-- One failing `execute` call at time `t` (only the state evolution). -/
def failStep (cb : CircuitBreaker) (t : Nat) : CircuitBreaker :=
  (cb.execute t (OpOutcome.fails () : OpOutcome Unit Unit)).2.1

/-- A sequence of consecutive failing `execute` calls at times `ts`. -/
def failSeq (cb : CircuitBreaker) (ts : List Nat) : CircuitBreaker :=
  ts.foldl failStep cb

/-- `CircuitBreakerWithFallback.execute` (lines 169-179): run the base
`execute`; on any caught error, if the post-call state is OPEN and a
fallback is configured, return the fallback's value, else re-throw. -/
def CircuitBreaker.executeWithFallback {α ε : Type} (cb : CircuitBreaker)
    (now : Nat) (op : OpOutcome α ε) (fallbackFn : Option α) :
    ExecResult α ε × CircuitBreaker × Nat :=
  match cb.execute now op with
  | (.ok a, cb1, n) => (.ok a, cb1, n)
  | (err, cb1, n) =>
    if cb1.state = .OPEN then
      match fallbackFn with
      | some fb => (.ok fb, cb1, n)
      | none => (err, cb1, n)
    else (err, cb1, n)

/-- A JS error as the RateLimiter sees it: a message and, when the error
came from an HTTP response, that response's status
(`error.response?.status`). -/
structure JsError where
  message : String
  responseStatus : Option Nat
deriving DecidableEq

/-- The check `error.response?.status === 429` used by `processQueue`
(src/myOwnCodes/mock-server.js line 202) to recognize the rate-limit
signal. -/
def JsError.isRateLimit (e : JsError) : Bool :=
  match e.responseStatus with
  | some s => s == 429
  | none => false

/-- A queue entry `{ requestFn, resolve, reject }` pushed by `enqueue`.
The promise callbacks are modelled by events tagged with the entry's `id`;
`outcome` is what one invocation of `requestFn` produces. -/
structure QItem (α : Type) where
  id : Nat
  outcome : OpOutcome α JsError
deriving DecidableEq

/-- Does this queue entry's operation fail with the rate-limit signal? -/
def QItem.rateLimited {α : Type} (it : QItem α) : Bool :=
  match it.outcome with
  | .succeeds _ => false
  | .fails e => e.isRateLimit

/-- The `RateLimiter` class state (src/myOwnCodes/mock-server.js,
constructor lines 169-174): configuration, pending FIFO queue, and the
`processing` flag guaranteeing a single consumer. -/
structure RateLimiter (α : Type) where
  maxRequests : Nat
  timeWindow : Nat
  queue : List (QItem α)
  processing : Bool
deriving DecidableEq

/-- Observable promise-level events of one `processQueue` run. -/
inductive RLEvent (α : Type) where
  | dispatched (id : Nat) (time : Nat)
  | resolved (id : Nat) (a : α)
  | rejected (id : Nat) (e : JsError)
deriving DecidableEq

/-- One run of `processQueue` (lines 190-214) at time `now`: return early
when already processing or the queue is empty (no timer scheduled); else
set `processing`, shift the head item, invoke it; on success resolve and
schedule the pacing delay `timeWindow / maxRequests`; on a 429 error
unshift the item back to the head and schedule the fixed 60000 ms
cool-down (`waitAndRetry(60000)`, line 205-206) without rejecting; on any
other error reject with that error and schedule the pacing delay.  The
third component is the delay handed to `waitAndRetry`, whose timer
callback clears `processing` and re-runs `processQueue`. -/
def RateLimiter.processQueue {α : Type} (s : RateLimiter α) (now : Nat) :
    RateLimiter α × List (RLEvent α) × Option Nat :=
  if s.processing then (s, [], none)
  else
    match s.queue with
    | [] => (s, [], none)
    | item :: rest =>
      match item.outcome with
      | .succeeds a =>
        ({ s with processing := true, queue := rest },
         [.dispatched item.id now, .resolved item.id a],
         some (s.timeWindow / s.maxRequests))
      | .fails e =>
        if e.isRateLimit then
          ({ s with processing := true, queue := item :: rest },
           [.dispatched item.id now],
           some 60000)
        else
          ({ s with processing := true, queue := rest },
           [.dispatched item.id now, .rejected item.id e],
           some (s.timeWindow / s.maxRequests))

/-- Replay of the `setTimeout` chain: run `processQueue`, and when it
scheduled a delay, fire the timer (clear `processing`, advance the clock
by the delay) and continue, for at most `fuel` rounds. -/
def RateLimiter.drain {α : Type} (s : RateLimiter α) (now fuel : Nat) :
    List (RLEvent α) :=
  match fuel with
  | 0 => []
  | f + 1 =>
    match s.processQueue now with
    | (_, evs, none) => evs
    | (s1, evs, some d) =>
      evs ++ RateLimiter.drain { s1 with processing := false } (now + d) f

/-- Project a dispatch event to its `(id, time)` pair. -/
def RLEvent.dispatchOf {α : Type} : RLEvent α → Option (Nat × Nat)
  | .dispatched i t => some (i, t)
  | _ => none

/-- The sequence of `(id, time)` dispatches in an event trace. -/
def dispatchLog {α : Type} (evs : List (RLEvent α)) : List (Nat × Nat) :=
  evs.filterMap RLEvent.dispatchOf

/-- Modelled from the spec's ordering sentence: the items dispatched
oldest-first, one at a time, each exactly `delta` after the previous one,
starting at `now`.  Compared against `dispatchLog` of the code's drain. -/
def pacedSchedule {α : Type} (items : List (QItem α)) (now delta : Nat) :
    List (Nat × Nat) :=
  match items with
  | [] => []
  | it :: rest => (it.id, now) :: pacedSchedule rest (now + delta) delta

/-- The `APICache` class (src/myOwnCodes/mock-server.js lines 233-265):
a map from keys to `{ data, expiry }`, modelled as an association list
with unique keys, plus the configured `ttl`. -/
structure APICache (α : Type) where
  entries : List (String × α × Nat)
  ttl : Nat
deriving DecidableEq

/-- `Map.get`: the value-and-expiry stored at `k`, if any. -/
def lookupKey {α : Type} (l : List (String × α × Nat)) (k : String) :
    Option (α × Nat) :=
  match l with
  | [] => none
  | (k1, d, e) :: rest => if k1 = k then some (d, e) else lookupKey rest k

/-- `Map.delete` (and the overwrite part of `Map.set`): drop the entries
stored at `k`. -/
def eraseKey {α : Type} (l : List (String × α × Nat)) (k : String) :
    List (String × α × Nat) :=
  l.filter (fun p => p.1 != k)

/-- `APICache.get` (lines 239-252): absent key gives null; an entry whose
expiry lies strictly in the past (`Date.now() > item.expiry`) is deleted
and null returned; otherwise the data is returned unchanged. -/
def APICache.get {α : Type} (c : APICache α) (now : Nat) (k : String) :
    Option α × APICache α :=
  match lookupKey c.entries k with
  | none => (none, c)
  | some (d, e) =>
    if e < now then (none, { c with entries := eraseKey c.entries k })
    else (some d, c)

/-- `APICache.set` (lines 254-260): store `data` under `key` with
`expiry = Date.now() + this.ttl`, overwriting any previous entry. -/
def APICache.set {α : Type} (c : APICache α) (now : Nat) (k : String)
    (d : α) : APICache α :=
  { c with entries := (k, d, now + c.ttl) :: eraseKey c.entries k }

end ApiPractice

namespace ApiPractice

/-- While the breaker is CLOSED and the threshold is not yet reached,
each failing call just increments `failureCount`. -/
theorem failSeq_closed (cb : CircuitBreaker) (ts : List Nat)
    (hs : cb.state = .CLOSED)
    (h : cb.failureCount + ts.length < cb.threshold) :
    failSeq cb ts = { cb with failureCount := cb.failureCount + ts.length } := by
  induction ts generalizing cb with
  | nil => simp [failSeq]
  | cons t ts ih =>
    have hstep : failStep cb t = { cb with failureCount := cb.failureCount + 1 } := by
      have hnotth : ¬ cb.threshold ≤ cb.failureCount + 1 := by
        simp only [List.length_cons] at h; omega
      simp [failStep, CircuitBreaker.execute, CircuitBreaker.runOp,
        CircuitBreaker.onFailure, hs, hnotth]
    have hrec := ih { cb with failureCount := cb.failureCount + 1 } hs
      (by simp only [List.length_cons] at h ⊢; omega)
    simp only [failSeq, List.foldl_cons] at hrec ⊢
    rw [hstep, hrec]
    simp only [List.length_cons]
    congr 1
    omega

/-- The last element of a list ending in `b` is `b`. -/
theorem getLastD_append_singleton (l : List Nat) (b d : Nat) :
    (l ++ [b]).getLastD d = b := by
  induction l with
  | nil => rfl
  | cons x xs ih =>
    cases xs with
    | nil => rfl
    | cons y ys => simpa using ih

/-- C1: a fresh breaker fed `threshold` consecutive failing calls (at
arbitrary times `ts`) is OPEN after the last of them, with `nextAttempt`
equal to the time of that last failure plus the configured timeout, while
after every strictly shorter prefix of those failures it is still CLOSED. -/
theorem breaker_opens_at_threshold (T d t0 : Nat) (ts : List Nat)
    (hT : 1 ≤ T) (hlen : ts.length = T) :
    (∀ k, k < T →
      (failSeq (CircuitBreaker.create T d t0) (ts.take k)).state = .CLOSED) ∧
    (failSeq (CircuitBreaker.create T d t0) ts).state = .OPEN ∧
    (failSeq (CircuitBreaker.create T d t0) ts).nextAttempt = ts.getLastD 0 + d := by
  refine ⟨?_, ?_⟩
  · intro k hk
    have hcl := failSeq_closed (CircuitBreaker.create T d t0) (ts.take k)
      rfl (by simp [CircuitBreaker.create, hlen]; omega)
    rw [hcl]
    simp [CircuitBreaker.create]
  · rcases List.eq_nil_or_concat ts with hnil | ⟨l, b, hcat⟩
    · subst hnil; simp at hlen; omega
    · rw [List.concat_eq_append] at hcat
      subst hcat
      have hlast : (l ++ [b]).getLastD 0 = b := getLastD_append_singleton l b 0
      have hllen : l.length = T - 1 := by
        simp only [List.length_append, List.length_singleton] at hlen; omega
      have hcl := failSeq_closed (CircuitBreaker.create T d t0) l
        rfl (by simp [CircuitBreaker.create, hllen]; omega)
      have hfold : failSeq (CircuitBreaker.create T d t0) (l ++ [b])
          = failStep (failSeq (CircuitBreaker.create T d t0) l) b := by
        simp [failSeq, List.foldl_append]
      rw [hfold, hcl, hlast]
      have hth : T ≤ T - 1 + 1 := by omega
      simp [failStep, CircuitBreaker.execute, CircuitBreaker.runOp,
        CircuitBreaker.onFailure, CircuitBreaker.create, hllen, hth]

/-- Witness for C1: threshold 3, timeout 5000, failures at times
10, 20, 30 — CLOSED after the prefixes, OPEN with `nextAttempt = 5030`
after the third failure. -/
theorem breaker_opens_at_threshold_witness :
    (∀ k, k < 3 →
      (failSeq (CircuitBreaker.create 3 5000 0) ([10, 20, 30].take k)).state
        = .CLOSED) ∧
    (failSeq (CircuitBreaker.create 3 5000 0) [10, 20, 30]).state = .OPEN ∧
    (failSeq (CircuitBreaker.create 3 5000 0) [10, 20, 30]).nextAttempt
      = [10, 20, 30].getLastD 0 + 5000 :=
  breaker_opens_at_threshold 3 5000 0 [10, 20, 30] (by decide) (by decide)

/-- C3: when the breaker is OPEN and the trial window has arrived
(`nextAttempt ≤ now`), `execute` invokes the operation exactly once; a
successful trial closes the circuit and zeroes `failureCount`, while a
failing trial reopens it with `nextAttempt = now + timeout`. -/
theorem halfOpen_trial {α ε : Type} (cb : CircuitBreaker) (now : Nat)
    (op : OpOutcome α ε) (hs : cb.state = .OPEN) (ht : cb.nextAttempt ≤ now) :
    (cb.execute now op).2.2 = 1 ∧
    (∀ a, op = .succeeds a →
      (cb.execute now op).2.1.state = .CLOSED ∧
      (cb.execute now op).2.1.failureCount = 0) ∧
    (∀ e, op = .fails e →
      (cb.execute now op).2.1.state = .OPEN ∧
      (cb.execute now op).2.1.nextAttempt = now + cb.timeout) := by
  cases op with
  | succeeds a =>
    simp [CircuitBreaker.execute, CircuitBreaker.runOp, CircuitBreaker.onSuccess,
      hs, Nat.not_lt.mpr ht]
  | fails e =>
    simp [CircuitBreaker.execute, CircuitBreaker.runOp, CircuitBreaker.onFailure,
      hs, Nat.not_lt.mpr ht]

/-- Witness for C3 at a concrete OPEN breaker whose window has elapsed,
with a failing trial operation. -/
theorem halfOpen_trial_witness :
    ((CircuitBreaker.mk 3 5000 3 0 .OPEN 100).execute 100
        (OpOutcome.fails 9 : OpOutcome Nat Nat)).2.2 = 1 ∧
    (∀ a, (OpOutcome.fails 9 : OpOutcome Nat Nat) = .succeeds a →
      ((CircuitBreaker.mk 3 5000 3 0 .OPEN 100).execute 100
          (OpOutcome.fails 9 : OpOutcome Nat Nat)).2.1.state = .CLOSED ∧
      ((CircuitBreaker.mk 3 5000 3 0 .OPEN 100).execute 100
          (OpOutcome.fails 9 : OpOutcome Nat Nat)).2.1.failureCount = 0) ∧
    (∀ e, (OpOutcome.fails 9 : OpOutcome Nat Nat) = .fails e →
      ((CircuitBreaker.mk 3 5000 3 0 .OPEN 100).execute 100
          (OpOutcome.fails 9 : OpOutcome Nat Nat)).2.1.state = .OPEN ∧
      ((CircuitBreaker.mk 3 5000 3 0 .OPEN 100).execute 100
          (OpOutcome.fails 9 : OpOutcome Nat Nat)).2.1.nextAttempt
        = 100 + 5000) :=
  halfOpen_trial (CircuitBreaker.mk 3 5000 3 0 .OPEN 100) 100
    (OpOutcome.fails 9 : OpOutcome Nat Nat) rfl (by decide)

/-- C4: `execute` invokes the operation at most once per call, and a
failing operation's own error is re-raised verbatim whenever the operation
was invoked; when it was not invoked the caller sees `CircuitOpenError`. -/
theorem breaker_passthrough_no_retry {α ε : Type} (cb : CircuitBreaker)
    (now : Nat) (e : ε) (op : OpOutcome α ε) :
    (cb.execute now op).2.2 ≤ 1 ∧
    ((cb.execute now (OpOutcome.fails e : OpOutcome α ε)).2.2 = 1 →
      (cb.execute now (OpOutcome.fails e : OpOutcome α ε)).1 = .opError e) ∧
    ((cb.execute now (OpOutcome.fails e : OpOutcome α ε)).2.2 = 0 →
      (cb.execute now (OpOutcome.fails e : OpOutcome α ε)).1 = .circuitOpen) := by
  by_cases hs : cb.state = .OPEN
  · by_cases ht : now < cb.nextAttempt
    · cases op <;> simp [CircuitBreaker.execute, CircuitBreaker.runOp, hs, ht]
    · cases op <;> simp [CircuitBreaker.execute, CircuitBreaker.runOp, hs, ht]
  · cases op <;> simp [CircuitBreaker.execute, CircuitBreaker.runOp, hs]

/-- Witness for C4 at a concrete CLOSED breaker and a failing operation. -/
theorem breaker_passthrough_no_retry_witness :
    ((CircuitBreaker.create 3 5000 0).execute 0
        (OpOutcome.fails 9 : OpOutcome Nat Nat)).2.2 ≤ 1 ∧
    (((CircuitBreaker.create 3 5000 0).execute 0
        (OpOutcome.fails 9 : OpOutcome Nat Nat)).2.2 = 1 →
      ((CircuitBreaker.create 3 5000 0).execute 0
          (OpOutcome.fails 9 : OpOutcome Nat Nat)).1 = .opError 9) ∧
    (((CircuitBreaker.create 3 5000 0).execute 0
        (OpOutcome.fails 9 : OpOutcome Nat Nat)).2.2 = 0 →
      ((CircuitBreaker.create 3 5000 0).execute 0
          (OpOutcome.fails 9 : OpOutcome Nat Nat)).1 = .circuitOpen) :=
  breaker_passthrough_no_retry (CircuitBreaker.create 3 5000 0) 0 9
    (OpOutcome.fails 9 : OpOutcome Nat Nat)

/-- C2: while the breaker is OPEN and the current time is strictly before
`nextAttempt`, `execute` throws `CircuitOpenError` immediately, never
invokes the operation (invocation count 0), and leaves the whole breaker
state — `failureCount`, `successCount`, `nextAttempt` — unchanged. -/
theorem open_breaker_fails_fast {α ε : Type} (cb : CircuitBreaker) (now : Nat)
    (op : OpOutcome α ε) (hs : cb.state = .OPEN) (ht : now < cb.nextAttempt) :
    cb.execute now op = (.circuitOpen, cb, 0) := by
  simp [CircuitBreaker.execute, hs, ht]

/-- Witness for C2 at a concrete OPEN breaker and a concrete time before
`nextAttempt`. -/
theorem open_breaker_fails_fast_witness :
    (CircuitBreaker.mk 3 5000 3 2 .OPEN 100).execute 50
        (OpOutcome.succeeds 7 : OpOutcome Nat Nat) =
      (.circuitOpen, CircuitBreaker.mk 3 5000 3 2 .OPEN 100, 0) :=
  open_breaker_fails_fast (CircuitBreaker.mk 3 5000 3 2 .OPEN 100) 50
    (OpOutcome.succeeds 7 : OpOutcome Nat Nat) rfl (by decide)

/-- C8 counterexample: `reset()` sets `successCount` back to 0, so the
concrete operation sequence "one successful `execute`, then `reset`"
strictly decreases `successCount` from 1 to 0 — refuting the claim that
no sequence of operations on the breaker ever decreases it. -/
theorem successCount_decreases_on_reset_cex :
    (((CircuitBreaker.create 3 5000 0).execute 0
        (OpOutcome.succeeds 1 : OpOutcome Nat Nat)).2.1).successCount = 1 ∧
    ((((CircuitBreaker.create 3 5000 0).execute 0
        (OpOutcome.succeeds 1 : OpOutcome Nat Nat)).2.1).reset).successCount = 0 ∧
    ((((CircuitBreaker.create 3 5000 0).execute 0
        (OpOutcome.succeeds 1 : OpOutcome Nat Nat)).2.1).reset).successCount
      < (((CircuitBreaker.create 3 5000 0).execute 0
        (OpOutcome.succeeds 1 : OpOutcome Nat Nat)).2.1).successCount := by
  decide

/-- C8 amended: every successful `execute` resets `failureCount` to 0
regardless of its prior value; `successCount` never decreases across
`execute` calls and is metrics-only (the result, state, `failureCount`
and `nextAttempt` produced by `execute` are independent of its value) —
but the explicit `reset()` operation sets `successCount` back to 0. -/
theorem success_resets_failures_metrics_only {α ε : Type}
    (cb : CircuitBreaker) (now s : Nat) (op : OpOutcome α ε) :
    (∀ a, (cb.execute now op).1 = .ok a →
      (cb.execute now op).2.1.failureCount = 0) ∧
    cb.successCount ≤ (cb.execute now op).2.1.successCount ∧
    ({ cb with successCount := s }.execute now op).1 = (cb.execute now op).1 ∧
    ({ cb with successCount := s }.execute now op).2.1.state
      = (cb.execute now op).2.1.state ∧
    ({ cb with successCount := s }.execute now op).2.1.failureCount
      = (cb.execute now op).2.1.failureCount ∧
    ({ cb with successCount := s }.execute now op).2.1.nextAttempt
      = (cb.execute now op).2.1.nextAttempt ∧
    cb.reset.successCount = 0 := by
  by_cases hs : cb.state = .OPEN <;> by_cases ht : now < cb.nextAttempt <;>
    cases op <;>
      simp [CircuitBreaker.execute, CircuitBreaker.runOp,
        CircuitBreaker.onSuccess, CircuitBreaker.onFailure,
        CircuitBreaker.reset, hs, ht] <;>
    split_ifs <;> simp_all

/-- Witness for C8's amended statement at a concrete CLOSED breaker with
a successful operation. -/
theorem success_resets_failures_metrics_only_witness :
    (∀ a, ((CircuitBreaker.mk 3 5000 2 4 .CLOSED 0).execute 7
        (OpOutcome.succeeds 1 : OpOutcome Nat Nat)).1 = .ok a →
      ((CircuitBreaker.mk 3 5000 2 4 .CLOSED 0).execute 7
        (OpOutcome.succeeds 1 : OpOutcome Nat Nat)).2.1.failureCount = 0) ∧
    (CircuitBreaker.mk 3 5000 2 4 .CLOSED 0).successCount
      ≤ ((CircuitBreaker.mk 3 5000 2 4 .CLOSED 0).execute 7
        (OpOutcome.succeeds 1 : OpOutcome Nat Nat)).2.1.successCount ∧
    ({ CircuitBreaker.mk 3 5000 2 4 .CLOSED 0 with successCount := 99 }.execute 7
        (OpOutcome.succeeds 1 : OpOutcome Nat Nat)).1
      = ((CircuitBreaker.mk 3 5000 2 4 .CLOSED 0).execute 7
        (OpOutcome.succeeds 1 : OpOutcome Nat Nat)).1 ∧
    ({ CircuitBreaker.mk 3 5000 2 4 .CLOSED 0 with successCount := 99 }.execute 7
        (OpOutcome.succeeds 1 : OpOutcome Nat Nat)).2.1.state
      = ((CircuitBreaker.mk 3 5000 2 4 .CLOSED 0).execute 7
        (OpOutcome.succeeds 1 : OpOutcome Nat Nat)).2.1.state ∧
    ({ CircuitBreaker.mk 3 5000 2 4 .CLOSED 0 with successCount := 99 }.execute 7
        (OpOutcome.succeeds 1 : OpOutcome Nat Nat)).2.1.failureCount
      = ((CircuitBreaker.mk 3 5000 2 4 .CLOSED 0).execute 7
        (OpOutcome.succeeds 1 : OpOutcome Nat Nat)).2.1.failureCount ∧
    ({ CircuitBreaker.mk 3 5000 2 4 .CLOSED 0 with successCount := 99 }.execute 7
        (OpOutcome.succeeds 1 : OpOutcome Nat Nat)).2.1.nextAttempt
      = ((CircuitBreaker.mk 3 5000 2 4 .CLOSED 0).execute 7
        (OpOutcome.succeeds 1 : OpOutcome Nat Nat)).2.1.nextAttempt ∧
    (CircuitBreaker.mk 3 5000 2 4 .CLOSED 0).reset.successCount = 0 :=
  success_resets_failures_metrics_only (CircuitBreaker.mk 3 5000 2 4 .CLOSED 0)
    7 99 (OpOutcome.succeeds 1 : OpOutcome Nat Nat)

/-- C9: with a configured fallback, whenever a failing operation leaves
the breaker's post-call state OPEN — the threshold reached in CLOSED, a
failed HALF_OPEN trial, or the fail-fast rejection — `execute` returns
the fallback's value instead of re-raising the failure. -/
theorem fallback_on_breaker_trip {α ε : Type} (cb : CircuitBreaker)
    (now : Nat) (e : ε) (fb : α)
    (h : ((cb.execute now (OpOutcome.fails e : OpOutcome α ε)).2.1).state
        = .OPEN) :
    (cb.executeWithFallback now (OpOutcome.fails e : OpOutcome α ε)
        (some fb)).1 = .ok fb := by
  by_cases hs : cb.state = .OPEN
  · by_cases ht : now < cb.nextAttempt
    · simp [CircuitBreaker.executeWithFallback, CircuitBreaker.execute, hs, ht]
    · simp [CircuitBreaker.executeWithFallback, CircuitBreaker.execute,
        CircuitBreaker.runOp, CircuitBreaker.onFailure, hs, ht]
  · by_cases hh : cb.state = .HALF_OPEN
    · simp [CircuitBreaker.executeWithFallback, CircuitBreaker.execute,
        CircuitBreaker.runOp, CircuitBreaker.onFailure, hs, hh]
    · by_cases hth : cb.threshold ≤ cb.failureCount + 1
      · simp [CircuitBreaker.executeWithFallback, CircuitBreaker.execute,
          CircuitBreaker.runOp, CircuitBreaker.onFailure, hs, hh, hth]
      · exfalso
        simp [CircuitBreaker.execute, CircuitBreaker.runOp,
          CircuitBreaker.onFailure, hs, hh, hth] at h

/-- Witness for C9: a breaker with threshold 1 trips OPEN on its first
failure, and the fallback value 42 is returned instead of the error. -/
theorem fallback_on_breaker_trip_witness :
    (((CircuitBreaker.create 1 5000 0).execute 0
        (OpOutcome.fails 9 : OpOutcome Nat Nat)).2.1).state = .OPEN ∧
    ((CircuitBreaker.create 1 5000 0).executeWithFallback 0
        (OpOutcome.fails 9 : OpOutcome Nat Nat) (some 42)).1 = .ok 42 :=
  ⟨by decide, fallback_on_breaker_trip (CircuitBreaker.create 1 5000 0) 0 9 42
    (by decide)⟩

/-- With no rate-limited item in the queue, the drain dispatches the
items oldest-first, one per round, spaced by the pacing interval. -/
theorem drain_fifo_aux {α : Type} (mr tw : Nat) (items : List (QItem α)) :
    (∀ it ∈ items, it.rateLimited = false) → ∀ now : Nat,
    dispatchLog (RateLimiter.drain (RateLimiter.mk mr tw items false) now
        items.length)
      = pacedSchedule items now (tw / mr) := by
  induction items with
  | nil =>
    intro _ now
    simp [RateLimiter.drain, pacedSchedule, dispatchLog]
  | cons it rest ih =>
    intro h now
    have hit : it.rateLimited = false := h it (List.mem_cons_self it rest)
    have hrest : ∀ x ∈ rest, x.rateLimited = false :=
      fun x hx => h x (List.mem_cons_of_mem it hx)
    cases hout : it.outcome with
    | succeeds a =>
      simp only [List.length_cons, RateLimiter.drain, RateLimiter.processQueue,
        hout, Bool.false_eq_true, if_false]
      simpa [dispatchLog, RLEvent.dispatchOf, pacedSchedule]
        using ih hrest (now + tw / mr)
    | fails e =>
      have hisrl : e.isRateLimit = false := by
        simpa [QItem.rateLimited, hout] using hit
      simp only [List.length_cons, RateLimiter.drain, RateLimiter.processQueue,
        hout, hisrl, Bool.false_eq_true, if_false]
      simpa [dispatchLog, RLEvent.dispatchOf, pacedSchedule]
        using ih hrest (now + tw / mr)

/-- C5: starting from a queue of items none of which fails with the
rate-limit signal, the timer-driven drain dispatches them strictly in
arrival (FIFO) order, one per round, with the fixed pacing delay
`timeWindow / maxRequests` between successive dispatches; and the
`processing` flag makes `processQueue` a no-op while a dispatch is in
flight, so at most one underlying call is outstanding at any instant. -/
theorem rateLimiter_fifo_paced {α : Type} (mr tw now : Nat)
    (items : List (QItem α))
    (h : ∀ it ∈ items, it.rateLimited = false) :
    dispatchLog (RateLimiter.drain (RateLimiter.mk mr tw items false) now
        items.length)
      = pacedSchedule items now (tw / mr) ∧
    (∀ (s : RateLimiter α) (t : Nat), s.processing = true →
      s.processQueue t = (s, [], none)) := by
  refine ⟨drain_fifo_aux mr tw items h now, ?_⟩
  intro s t hp
  simp [RateLimiter.processQueue, hp]

/-- Witness for C5: three items (the middle one failing with a plain 500
error) enqueued at time 0 with `maxRequests = 5`, `timeWindow = 60000`
are dispatched at times 0, 12000, 24000 in arrival order. -/
theorem rateLimiter_fifo_paced_witness :
    dispatchLog (RateLimiter.drain
        (RateLimiter.mk 5 60000
          [QItem.mk 1 (OpOutcome.succeeds 10),
           QItem.mk 2 (OpOutcome.fails (JsError.mk "boom" (some 500))),
           QItem.mk 3 (OpOutcome.succeeds 30)] false) 0 3)
      = pacedSchedule
          [QItem.mk 1 (OpOutcome.succeeds 10),
           QItem.mk 2 (OpOutcome.fails (JsError.mk "boom" (some 500))),
           QItem.mk 3 (OpOutcome.succeeds (30 : Nat))] 0 (60000 / 5) :=
  (rateLimiter_fifo_paced 5 60000 0
    [QItem.mk 1 (OpOutcome.succeeds 10),
     QItem.mk 2 (OpOutcome.fails (JsError.mk "boom" (some 500))),
     QItem.mk 3 (OpOutcome.succeeds (30 : Nat))] (by decide)).1

/-- C6 counterexample: the cool-down on the rate-limit branch is the
fixed constant 60000 ms, which is NOT longer than the normal pacing
interval for every configuration: with `maxRequests = 1` and
`timeWindow = 120000` the pacing interval is 120000 ms, yet the 429
branch schedules only 60000 ms. -/
theorem rateLimit_cooldown_cex :
    (RateLimiter.mk 1 120000
        [QItem.mk 1 (OpOutcome.fails (JsError.mk "Too Many Requests"
          (some 429)))] false : RateLimiter Nat).processQueue 0
      = (RateLimiter.mk 1 120000
          [QItem.mk 1 (OpOutcome.fails (JsError.mk "Too Many Requests"
            (some 429)))] true,
         [RLEvent.dispatched 1 0], some 60000) ∧
    ¬ (120000 / 1 < 60000) := by
  decide

/-- C6 amended: an item failing with the rate-limit signal (HTTP 429) is
re-inserted at the head of the queue and redispatched after the fixed
60000 ms cool-down — which exceeds the pacing interval exactly when
`timeWindow / maxRequests < 60000`, as in the repo's 5-per-60000 ms
configurations — and the caller's promise is never rejected on that
branch; any other failure rejects the promise with that very error and
discards the item, the next dispatch following after the pacing delay. -/
theorem rateLimit_requeue_head {α : Type} (s : RateLimiter α)
    (item : QItem α) (rest : List (QItem α)) (now : Nat) (e : JsError)
    (hp : s.processing = false) (hq : s.queue = item :: rest) :
    (item.outcome = .fails e → e.isRateLimit = true →
      s.processQueue now
        = ({ s with processing := true, queue := item :: rest },
           [.dispatched item.id now], some 60000) ∧
      dispatchLog (s.drain now 2)
        = [(item.id, now), (item.id, now + 60000)]) ∧
    (item.outcome = .fails e → e.isRateLimit = false →
      s.processQueue now
        = ({ s with processing := true, queue := rest },
           [.dispatched item.id now, .rejected item.id e],
           some (s.timeWindow / s.maxRequests))) := by
  constructor
  · intro hout hrl
    constructor
    · simp [RateLimiter.processQueue, hp, hq, hout, hrl]
    · simp [RateLimiter.drain, RateLimiter.processQueue, hp, hq, hout, hrl,
        dispatchLog, RLEvent.dispatchOf]
  · intro hout hrl
    simp [RateLimiter.processQueue, hp, hq, hout, hrl]

/-- Witness for C6's amended statement: a 429-failing item at the head is
dispatched at time 0 and again at time 60000 after the cool-down. -/
theorem rateLimit_requeue_head_witness :
    dispatchLog ((RateLimiter.mk 5 60000
        [QItem.mk 1 (OpOutcome.fails (JsError.mk "Too Many Requests"
          (some 429)))] false : RateLimiter Nat).drain 0 2)
      = [(1, 0), (1, 0 + 60000)] :=
  ((rateLimit_requeue_head
      (RateLimiter.mk 5 60000
        [QItem.mk 1 (OpOutcome.fails (JsError.mk "Too Many Requests"
          (some 429)))] false : RateLimiter Nat)
      (QItem.mk 1 (OpOutcome.fails (JsError.mk "Too Many Requests"
        (some 429))))
      [] 0 (JsError.mk "Too Many Requests" (some 429)) rfl rfl).1
    rfl rfl).2

/-- C10: the rate-limit signal is recognized solely as an error whose
attached response has HTTP status 429; an item failing with a plain
error carrying no response — such as the thrown
`Error("Rate limit exceeded")` — is rejected terminally with that error,
removed from the queue, and not re-queued. -/
theorem plain_error_rejected_not_requeued {α : Type} (s : RateLimiter α)
    (item : QItem α) (rest : List (QItem α)) (now : Nat) (e : JsError)
    (hp : s.processing = false) (hq : s.queue = item :: rest)
    (hout : item.outcome = .fails e) (hns : e.responseStatus = none) :
    e.isRateLimit = false ∧
    s.processQueue now
      = ({ s with processing := true, queue := rest },
         [.dispatched item.id now, .rejected item.id e],
         some (s.timeWindow / s.maxRequests)) ∧
    (∀ e1 : JsError, e1.isRateLimit = true ↔ e1.responseStatus = some 429) := by
  have hrl : e.isRateLimit = false := by simp [JsError.isRateLimit, hns]
  refine ⟨hrl, ?_, ?_⟩
  · simp [RateLimiter.processQueue, hp, hq, hout, hrl]
  · intro e1
    cases he : e1.responseStatus <;> simp [JsError.isRateLimit, he]

/-- Witness for C10: the literal `Error("Rate limit exceeded")` (no
response object) rejects the item's promise and leaves the queue without
it. -/
theorem plain_error_rejected_not_requeued_witness :
    (RateLimiter.mk 5 60000
        [QItem.mk 1 (OpOutcome.fails (JsError.mk "Rate limit exceeded"
          none))] false : RateLimiter Nat).processQueue 0
      = (RateLimiter.mk 5 60000 [] true,
         [RLEvent.dispatched 1 0,
          RLEvent.rejected 1 (JsError.mk "Rate limit exceeded" none)],
         some (60000 / 5)) :=
  (plain_error_rejected_not_requeued
    (RateLimiter.mk 5 60000
      [QItem.mk 1 (OpOutcome.fails (JsError.mk "Rate limit exceeded"
        none))] false : RateLimiter Nat)
    (QItem.mk 1 (OpOutcome.fails (JsError.mk "Rate limit exceeded" none)))
    [] 0 (JsError.mk "Rate limit exceeded" none) rfl rfl rfl rfl).2.1

/-- The overwrite in `set` removes every other entry stored at `k`. -/
theorem lookupKey_eraseKey {α : Type} (l : List (String × α × Nat))
    (k : String) : lookupKey (eraseKey l k) k = none := by
  induction l with
  | nil => rfl
  | cons p rest ih =>
    obtain ⟨k1, d, e⟩ := p
    by_cases hk : k1 = k
    · simpa [eraseKey, hk] using ih
    · simpa [eraseKey, lookupKey, hk] using ih

/-- C7: `get` is absent for a never-set key; a read strictly after the
stored expiry returns absent and deletes the entry; `set` overwrites the
entry with expiry `now + ttl`; and a `get` at any time up to that expiry
after a `set` returns the value just stored. -/
theorem cache_ttl_semantics {α : Type} (c : APICache α) (k : String) (v : α)
    (t1 t2 : Nat) :
    (lookupKey c.entries k = none → (c.get t1 k).1 = none) ∧
    (∀ d e, lookupKey c.entries k = some (d, e) → e < t1 →
      (c.get t1 k).1 = none ∧ lookupKey (c.get t1 k).2.entries k = none) ∧
    lookupKey ((c.set t1 k v).entries) k = some (v, t1 + c.ttl) ∧
    (t1 ≤ t2 → t2 ≤ t1 + c.ttl → ((c.set t1 k v).get t2 k).1 = some v) := by
  refine ⟨?_, ?_, ?_, ?_⟩
  · intro h
    simp [APICache.get, h]
  · intro d e h he
    simp [APICache.get, h, he, lookupKey_eraseKey]
  · simp [APICache.set, lookupKey]
  · intro h1 h2
    have hne : ¬ (t1 + c.ttl < t2) := by omega
    simp [APICache.set, APICache.get, lookupKey, hne]

/-- Witness for C7: a cache holding an entry for "IBM" expired at 50 is
read at 60 (absent, evicted), and after `set` at 60 with ttl 100 a read
at 120 returns the fresh value. -/
theorem cache_ttl_semantics_witness :
    (((APICache.mk [("IBM", 7, 50)] 100 : APICache Nat).set 60 "IBM" 9).get
        120 "IBM").1 = some 9 :=
  (cache_ttl_semantics (APICache.mk [("IBM", 7, 50)] 100 : APICache Nat)
    "IBM" 9 60 120).2.2.2 (by decide) (by decide)

end ApiPractice
